import Mathlib

/-!
Verification development for the Tria.ge batch-download script
(TriageDownload.py).  The definitions below are a shallow embedding of the
script's core logic: the per-sample downloader with its tenacity retry
decorator, the search-result parser, the URL construction, the config /
cookie loading, and the main batch loop.  Machine-irrelevant side channels
(logging, console output) are dropped; file-system state is modelled as the
optional size of the one file a download writes.
-/

set_option autoImplicit false

namespace Triage

/-- MIN_FILE_SIZE constant from the script (line 24). -/
def MIN_FILE_SIZE : Nat := 1024

/-- Outcome of one call of the download_sample body, abstracting the
distinguishable return paths of the function (each path emits a distinct
log line in the script).  The script itself returns None on every path;
these tags name the paths. -/
inductive Outcome where
  | skippedNotFound
  | skippedInvalidSize (size : Nat)
  | success (size : Nat)
  | ioErrorLogged
  deriving DecidableEq

/-- Exceptions that can escape the download_sample body (requests
exceptions are re-raised; OSError is swallowed), plus the RetryError that
tenacity raises once the attempt cap is hit. -/
inductive Exn where
  | requestException (status : Option Nat)
  | tooManyRedirects
  | retryError
  deriving DecidableEq

/-- Whether an exception is an instance of requests.RequestException:
the retry decorator (line 101) retries exactly these.
requests.TooManyRedirects is a RequestException subclass;
tenacity.RetryError is not a requests exception. -/
def Exn.isRequestException : Exn → Bool
  | .requestException _ => true
  | .tooManyRedirects => true
  | .retryError => false

/-- Result of one attempt of download_sample: either a normal return with
one of the path tags, or a raised exception. -/
inductive DownloadResult where
  | returned (o : Outcome)
  | raised (e : Exn)
  deriving DecidableEq

/-- The retry predicate of the decorator applied to an attempt result:
retry_if_exception_type(requests.RequestException). -/
def DownloadResult.retryable : DownloadResult → Bool
  | .returned _ => false
  | .raised e => e.isRequestException

/-- Whether a result is the Success outcome of the spec. -/
def DownloadResult.isSuccess : DownloadResult → Bool
  | .returned (.success _) => true
  | _ => false

/-- What the HTTP layer yields for one GET of the sample URL (line 110):
a 404 status, a non-2xx status that raise_for_status turns into an
HTTPError, a requests-level failure of the GET itself (redirect loop or
connection error), or a 200 whose body streams the given chunk sizes.
ioFailAt injects an OSError into the file-writing loop after the given
number of chunks have been written (none = no I/O failure). -/
inductive ReqEvent where
  | notFound
  | httpError (status : Nat)
  | tooManyRedirects
  | connError
  | ok (chunks : List Nat) (ioFailAt : Option Nat)

/-- The chunk-writing loop of lines 124-127.  The accumulator is the byte
count written so far (the file has already been created by open).  Returns
.ok totalSize on completion, or .error partialSize at the point the
injected OSError strikes (a fail index at or past the end of the stream
models an OSError at the tail of the with-block, e.g. on close). -/
def writeLoop : List Nat → Option Nat → Nat → Except Nat Nat
  | [], none, written => .ok written
  | [], some _, written => .error written
  | _ :: _, some 0, written => .error written
  | c :: cs, some (k + 1), written => writeLoop cs (some k) (written + c)
  | c :: cs, none, written => writeLoop cs none (written + c)

/-- One call of the download_sample body (lines 105-150), as a function of
the HTTP event and the current state of the destination file (none =
absent, some n = present with n bytes).
  - 404: log and return (lines 111-113), file untouched.
  - other non-2xx: raise_for_status raises HTTPError; the handler at line
    143 re-raises it.
  - redirect loop / connection failure on the GET: raised (lines 136-148).
  - 200: open truncates/creates the file, the chunk loop runs; an OSError
    is caught at line 149, logged, and NOT re-raised (the partial file
    stays); otherwise the size check of lines 129-135 deletes the file
    when size <= MIN_FILE_SIZE and keeps it otherwise. -/
def downloadSample (ev : ReqEvent) (fs : Option Nat) : DownloadResult × Option Nat :=
  match ev with
  | .notFound => (.returned .skippedNotFound, fs)
  | .httpError s => (.raised (.requestException (some s)), fs)
  | .tooManyRedirects => (.raised .tooManyRedirects, fs)
  | .connError => (.raised (.requestException none), fs)
  | .ok chunks ioFailAt =>
    match writeLoop chunks ioFailAt 0 with
    | .error pw => (.returned .ioErrorLogged, some pw)
    | .ok w =>
      if w ≤ MIN_FILE_SIZE then (.returned (.skippedInvalidSize w), none)
      else (.returned (.success w), some w)

/-- tenacity stop_after_attempt(m): stop once the just-finished attempt
number reaches m. -/
def stop_after_attempt (maxAttempt attemptNumber : Nat) : Bool :=
  decide (maxAttempt ≤ attemptNumber)

/-- tenacity wait_exponential(multiplier, min, max): the wait computed
after the failed attempt with the given 1-based number is
max(lo, min(multiplier * 2 ^ attemptNumber, hi)). -/
def wait_exponential (multiplier lo hi attemptNumber : Nat) : Nat :=
  max lo (min (multiplier * 2 ^ attemptNumber) hi)

/-- The decorated download_sample (lines 100-104): attempt n consumes the
n-th HTTP event; a result raising a RequestException is retried until
stop_after_attempt 5 fires, at which point tenacity raises RetryError
(reraise is left at its default False).  Returns the final result, the
final file state, and the number of attempts performed.  The fuel
argument bounds the recursion; 4 units suffice starting from attempt 1. -/
def attemptFrom (evs : Nat → ReqEvent) : Nat → Nat → Option Nat → DownloadResult × Option Nat × Nat
  | fuel, n, fs =>
    let rs := downloadSample (evs n) fs
    if rs.1.retryable then
      if stop_after_attempt 5 n then (.raised .retryError, rs.2, n)
      else
        match fuel with
        | 0 => (.raised .retryError, rs.2, n)
        | f + 1 => attemptFrom evs f (n + 1) rs.2
    else (rs.1, rs.2, n)

/-- download_sample as called by main: the tenacity loop started at
attempt 1. -/
def downloadWithRetry (evs : Nat → ReqEvent) (fs : Option Nat) : DownloadResult × Option Nat × Nat :=
  attemptFrom evs 4 1 fs

/-- FailureKind taxonomy of spec section 4.3. -/
inductive FailureKind where
  | Transient
  | RateLimited
  | NotFound
  | Fatal
  deriving DecidableEq

/-- Which failure kinds surface from the download_sample body as a raised
requests.RequestException (the only thing the decorator's
retry_if_exception_type predicate sees):
  - Transient (timeout, reset, 5xx): connection errors and HTTPError from
    raise_for_status are RequestExceptions, re-raised at line 148;
  - RateLimited (429/redirect loop): HTTPError and TooManyRedirects are
    RequestExceptions, re-raised at lines 142/148;
  - NotFound: the 404 check at line 111 returns normally, nothing raised;
  - Fatal (auth failure and other 4xx): raise_for_status raises HTTPError,
    a RequestException, re-raised at line 148. -/
def retries_on : FailureKind → Bool
  | .NotFound => false
  | _ => true

/-- Decision record of the spec's RetryPolicy contract. -/
structure RetryDecision where
  retry : Bool
  delay : Nat
  deriving DecidableEq

/-- The retry policy realised by the decorator configuration of lines
100-104, phrased in the spec's shouldRetry(attempt, kind) form: retry iff
the failure raises a RequestException and stop_after_attempt 5 has not
fired for the just-finished attempt; the wait is
wait_exponential(multiplier=1, min=2, max=10). -/
def shouldRetry (attempt : Nat) (kind : FailureKind) : RetryDecision :=
  if retries_on kind && !(stop_after_attempt 5 attempt) then
    { retry := true, delay := wait_exponential 1 2 10 attempt }
  else
    { retry := false, delay := 0 }

/-! HTML result parsing (parse_sample_ids, lines 92-98).  The script hands
the raw HTML to BeautifulSoup and runs find_all over the parsed tree; we
embed the parsed tree directly.  A document is a list of top-level nodes;
an element node records whether it carries the data-sample-id attribute
(and its value) plus its children; find_all visits descendants in document
order, i.e. preorder. -/

/-- One node of the parsed HTML tree: an element with an optional
data-sample-id attribute value and children, or a text node. -/
inductive HtmlNode where
  | elem (sampleId : Option String) (children : List HtmlNode)
  | text (s : String)

/-- The data-sample-id attribute of a node, if any. -/
def markerOf : HtmlNode → Option String
  | .elem a _ => a
  | .text _ => none

/-- Whether a node matches find_all(attrs={"data-sample-id": True}):
the attribute is present (any value). -/
def hasMarker (n : HtmlNode) : Bool :=
  (markerOf n).isSome

mutual
/-- Document-order (preorder) listing of a node and its descendants, the
order in which BeautifulSoup's find_all visits the tree. -/
def preorderNodes : HtmlNode → List HtmlNode
  | .text s => [.text s]
  | .elem a cs => .elem a cs :: preorderNodesList cs
/-- Document-order listing of a forest of nodes. -/
def preorderNodesList : List HtmlNode → List HtmlNode
  | [] => []
  | n :: ns => preorderNodes n ++ preorderNodesList ns
end

/-- soup.find_all(attrs={"data-sample-id": True}) on the parsed document
(line 95): all nodes carrying the attribute, in document order. -/
def find_all_with_marker (doc : List HtmlNode) : List HtmlNode :=
  (preorderNodesList doc).filter hasMarker

/-- parse_sample_ids (lines 92-98): the attribute value of every matched
element, in the order find_all returned them.  The list comprehension at
line 96 does no deduplication. -/
def parse_sample_ids (doc : List HtmlNode) : List String :=
  (find_all_with_marker doc).filterMap markerOf

/-! Download URL construction (line 106). -/

/-- download_url as built by the f-string at line 106: the sample id is
interpolated verbatim into the fixed template. -/
def download_url (sample_id : String) : String :=
  "https://tria.ge/samples/" ++ sample_id ++ "/sample.zip"

/-- Characters urllib.parse.quote leaves unencoded with its default
safe="/": ASCII letters and digits, the always-safe marks _.-~ and the
default-safe slash. -/
def isQuoteSafe (c : Char) : Bool :=
  c.isAlphanum || c = '_' || c = '.' || c = '-' || c = '~' || c = '/'

/-- Uppercase hexadecimal digit for a value below 16. -/
def hexDigit (n : Nat) : Char :=
  if n < 10 then Char.ofNat (48 + n) else Char.ofNat (65 + (n - 10))

/-- UTF-8 byte sequence of a character, as CPython encodes non-safe
characters before percent-escaping them. -/
def utf8Bytes (c : Char) : List Nat :=
  let n := c.toNat
  if n < 128 then [n]
  else if n < 2048 then [192 + n / 64, 128 + n % 64]
  else if n < 65536 then [224 + n / 4096, 128 + n / 64 % 64, 128 + n % 64]
  else [240 + n / 262144, 128 + n / 4096 % 64, 128 + n / 64 % 64, 128 + n % 64]

/-- Percent-encoding of one character: kept if quote-safe, otherwise each
UTF-8 byte becomes %XX. -/
def quoteChar (c : Char) : List Char :=
  if isQuoteSafe c then [c]
  else (utf8Bytes c).flatMap (fun b => ['%', hexDigit (b / 16), hexDigit (b % 16)])

/-- Modelled from the spec: urllib.parse.quote with the default safe="/",
the URL-encoding the spec says is applied to the identifier.  The script
imports quote (line 6) but applies it only to the family name (line 72),
never to the sample id. -/
def pythonQuote (s : String) : String :=
  ⟨(s.data.map quoteChar).flatten⟩

/-- Modelled from the spec: the download URL the spec describes, with the
identifier URL-encoded before being embedded as a path segment. -/
def download_url_spec (sample_id : String) : String :=
  "https://tria.ge/samples/" ++ pythonQuote sample_id ++ "/sample.zip"

/-! Config file and cookie loading (load_config lines 27-38,
load_cookies_into_session lines 181-199). -/

/-- The parsed config dict, reduced to the one entry the cookie loader
reads: the "cookies" mapping.  An absent or empty "cookies" key and an
empty dict behave identically under config.get("cookies", {}), so the
empty dict is represented by an empty cookie list. -/
structure Config where
  cookies : List (String × String)
  deriving DecidableEq

/-- State of config.json on disk: absent, present but not valid JSON, or
present and parsed. -/
inductive ConfigFile where
  | absent
  | invalidJson
  | valid (cfg : Config)
  deriving DecidableEq

/-- load_config (lines 27-38): a missing file yields an empty dict, a
json.JSONDecodeError is caught at line 34 and also yields an empty dict. -/
def load_config : ConfigFile → Config
  | .absent => { cookies := [] }
  | .invalidJson => { cookies := [] }
  | .valid c => c

/-- Exceptions that can escape load_cookies_into_session: json.load at
line 187 raising on invalid JSON (nothing in the function catches it), or
open at line 186 raising when the file is still absent after the browser
automation. -/
inductive LoadExn where
  | jsonDecodeError
  | fileNotFound
  deriving DecidableEq

/-- The config file the function goes on to open: when the file is absent
the browser-automation collaborator of line 184 runs first and may rewrite
it (its result is the afterAutomation parameter); otherwise the file on
disk stands. -/
def effectiveConfig (onDisk afterAutomation : ConfigFile) : ConfigFile :=
  match onDisk with
  | .absent => afterAutomation
  | .invalidJson => .invalidJson
  | .valid c => .valid c

/-- The open + json.load of lines 186-187: raises FileNotFoundError on a
missing file and json.JSONDecodeError on invalid JSON; neither is caught
in load_cookies_into_session. -/
def json_load_config : ConfigFile → Except LoadExn Config
  | .absent => .error .fileNotFound
  | .invalidJson => .error .jsonDecodeError
  | .valid c => .ok c

/-- load_cookies_into_session (lines 181-199).  After the possible
automation hand-off the file is opened and parsed unconditionally.  Empty
cookies give a clean False return (line 192); otherwise the cookies are
set on the session and True is returned. -/
def load_cookies_into_session (onDisk afterAutomation : ConfigFile) : Except LoadExn Bool :=
  match json_load_config (effectiveConfig onDisk afterAutomation) with
  | .error e => .error e
  | .ok c => if c.cookies.isEmpty then .ok false else .ok true

/-! The batch loop and main (lines 201-258). -/

/-- Exceptions the per-item download call (the decorated download_sample)
can raise into main's try of lines 243-253.  baseException stands for a
BaseException that is not an Exception (KeyboardInterrupt, SystemExit),
which no except clause of the loop matches. -/
inductive ItemExn where
  | tooManyRedirects
  | requestException (status : Option Nat)
  | retryError
  | otherException
  | baseException
  deriving DecidableEq

/-- Console record main produces for one identifier (the loop body's
distinct print/log paths). -/
inductive ItemLog where
  | completed (sid : String)
  | failedRedirects (sid : String)
  | failed404 (sid : String)
  | failedRequest (sid : String)
  | failedUnexpected (sid : String)
  deriving DecidableEq

/-- The try/except of lines 243-253 around one download call: each except
clause turns a raised exception into a console record and the loop goes
on; a BaseException matches no clause and propagates. -/
def handleItem (sid : String) : Except ItemExn Unit → Except ItemExn ItemLog
  | .ok () => .ok (.completed sid)
  | .error .tooManyRedirects => .ok (.failedRedirects sid)
  | .error (.requestException (some 404)) => .ok (.failed404 sid)
  | .error (.requestException _) => .ok (.failedRequest sid)
  | .error .retryError => .ok (.failedUnexpected sid)
  | .error .otherException => .ok (.failedUnexpected sid)
  | .error .baseException => .error .baseException

/-- The console record handleItem produces when the behavior is not a
BaseException (the unreachable fallback is failedUnexpected). -/
def itemLogOf (sid : String) (b : Except ItemExn Unit) : ItemLog :=
  match handleItem sid b with
  | .ok l => l
  | .error _ => .failedUnexpected sid

/-- Network requests the session issues. -/
inductive NetEvent where
  | search
  | download (sid : String)
  deriving DecidableEq

/-- The for loop of lines 241-256: items paired with the outcome of their
download call.  Returns the console records (or the propagating exception
that aborted the loop) together with the download requests issued; each
processed item issues at least one request before returning or raising
(retries within an item are folded into its single behavior). -/
def downloadLoop : List (String × Except ItemExn Unit) → Except ItemExn (List ItemLog) × List NetEvent
  | [] => (.ok [], [])
  | (sid, b) :: rest =>
    match handleItem sid b with
    | .error e => (.error e, [.download sid])
    | .ok l =>
      let (r, tr) := downloadLoop rest
      (r.map (fun ls => l :: ls), .download sid :: tr)

/-- Terminal state of one run of main. -/
inductive RunResult where
  | abortedConfigExn (e : LoadExn)
  | abortedNoCookies
  | abortedEmptyFamily
  | abortedSearchFetch
  | doneNoSamples
  | abortedDownload (e : ItemExn)
  | completed (logs : List ItemLog)
  deriving DecidableEq

/-- Whether a run result is an abort (early exit or propagating
exception) as opposed to a completed run or the soft empty-result end. -/
def RunResult.isAbort : RunResult → Bool
  | .abortedConfigExn _ => true
  | .abortedNoCookies => true
  | .abortedEmptyFamily => true
  | .abortedSearchFetch => true
  | .abortedDownload _ => true
  | .doneNoSamples => false
  | .completed _ => false

/-- main (lines 201-258) as a function of its external inputs: the config
file on disk, the config file the browser automation would leave behind,
the (already stripped) family name typed by the user, the fetched search
page (none covers both a fetch error and an empty body, the two falsy
cases of line 226, with the page given as its parsed tree), and the
behavior of the download call per identifier.  Returns the terminal state
and the trace of session requests (the search GET of line 80 and one
download GET per processed identifier). -/
def mainRun (onDisk afterAutomation : ConfigFile) (family : String)
    (fetched : Option (List HtmlNode)) (beh : String → Except ItemExn Unit) :
    RunResult × List NetEvent :=
  match load_cookies_into_session onDisk afterAutomation with
  | .error e => (.abortedConfigExn e, [])
  | .ok false => (.abortedNoCookies, [])
  | .ok true =>
    if family = "" then (.abortedEmptyFamily, [])
    else
      match fetched with
      | none => (.abortedSearchFetch, [.search])
      | some doc =>
        let ids := parse_sample_ids doc
        if ids.isEmpty then (.doneNoSamples, [.search])
        else
          match downloadLoop (ids.map (fun sid => (sid, beh sid))) with
          | (.error e, tr) => (.abortedDownload e, .search :: tr)
          | (.ok logs, tr) => (.completed logs, .search :: tr)

/-! Helper lemmas. -/

/-- With no injected I/O failure the write loop completes with the total
size of the stream. -/
theorem writeLoop_none : ∀ (l : List Nat) (w : Nat), writeLoop l none w = .ok (w + l.sum)
  | [], w => by simp [writeLoop]
  | c :: cs, w => by
    have ih := writeLoop_none cs (w + c)
    simp [writeLoop, ih]
    omega

/-- With an I/O failure injected after k chunks the write loop raises with
the sum of the first k chunks written. -/
theorem writeLoop_some : ∀ (l : List Nat) (k w : Nat), writeLoop l (some k) w = .error (w + (l.take k).sum)
  | [], k, w => by simp [writeLoop]
  | _ :: _, 0, w => by simp [writeLoop]
  | c :: cs, k + 1, w => by
    have ih := writeLoop_some cs k (w + c)
    simp [writeLoop, ih]
    omega

/-- Every download-call outcome other than a BaseException is matched by
one of the except clauses of lines 245-253. -/
theorem handleItem_ok (sid : String) (b : Except ItemExn Unit)
    (h : b ≠ .error .baseException) : handleItem sid b = .ok (itemLogOf sid b) := by
  match b with
  | .ok () => rfl
  | .error .tooManyRedirects => rfl
  | .error (.requestException none) => rfl
  | .error (.requestException (some s)) =>
    by_cases hs : s = 404 <;> simp [handleItem, itemLogOf, hs]
  | .error .retryError => rfl
  | .error .otherException => rfl
  | .error .baseException => exact absurd rfl h

/-- When no item raises a BaseException the download loop handles every
item in order, producing one console record and one download request per
item. -/
theorem downloadLoop_ok : ∀ (items : List (String × Except ItemExn Unit)),
    (∀ p ∈ items, p.2 ≠ Except.error ItemExn.baseException) →
    downloadLoop items =
      (.ok (items.map fun p => itemLogOf p.1 p.2), items.map fun p => NetEvent.download p.1)
  | [], _ => rfl
  | (sid, b) :: rest, h => by
    have hb : b ≠ Except.error ItemExn.baseException := h (sid, b) (by simp)
    have ih := downloadLoop_ok rest (fun p hp => h p (List.mem_cons_of_mem _ hp))
    simp [downloadLoop, handleItem_ok sid b hb, ih, Except.map]

/-- Appending the maps of quoted characters of a fully safe string
reproduces the string. -/
theorem pythonQuote_safe (s : String) (h : ∀ c ∈ s.data, isQuoteSafe c = true) :
    pythonQuote s = s := by
  unfold pythonQuote
  have hmap : s.data.map quoteChar = s.data.map fun c => [c] := by
    apply List.map_congr_left
    intro c hc
    simp [quoteChar, h c hc]
  rw [hmap]
  have hflat : ∀ l : List Char, (l.map fun c => [c]).flatten = l := by
    intro l
    induction l with
    | nil => rfl
    | cons c t ih => simp [ih]
  rw [hflat]

/-- Selecting the present attribute values of the nodes that carry one is
the same as selecting them from all nodes. -/
theorem filterMap_filter_isSome {α β : Type} (f : α → Option β) (l : List α) :
    (l.filter fun a => (f a).isSome).filterMap f = l.filterMap f := by
  induction l with
  | nil => rfl
  | cons a t ih => cases hf : f a <;> simp [List.filter, hf, ih]

/-! Claim theorems. -/

/-- C1 counterexample: the claim says shouldRetry(5, Transient) still
retries (with a fifth delay of 10) and that Fatal failures never retry.
In the code stop_after_attempt(5) already stops the just-finished fifth
attempt, so shouldRetry(5, Transient) is retry=false; and a Fatal failure
(non-404 4xx) surfaces as an HTTPError, a requests.RequestException, which
the decorator's retry_if_exception_type predicate does retry. -/
theorem c1_claim_counterexample :
    (shouldRetry 5 .Transient).retry = false ∧ (shouldRetry 1 .Fatal).retry = true := by
  decide

/-- C1 amended: the decorator of lines 100-104 retries exactly the
failures that surface as a raised requests.RequestException - Transient,
RateLimited and Fatal alike, but never NotFound (the 404 path returns
normally) - returning retry=true for attempts 1 through 4 with delay
min(2 * 2 ^ (attempt - 1), 10), i.e. the sequence 2, 4, 8, 10, and
retry=false from attempt 5 on, capping the total at 5 attempts. -/
theorem c1_retry_policy_amended (a : Nat) (k : FailureKind) (h : 1 ≤ a) :
    ((shouldRetry a k).retry = true ↔ (retries_on k = true ∧ a ≤ 4)) ∧
    ((shouldRetry a k).retry = true → (shouldRetry a k).delay = min (2 * 2 ^ (a - 1)) 10) := by
  have hiff : (shouldRetry a k).retry = true ↔ (retries_on k = true ∧ a ≤ 4) := by
    unfold shouldRetry stop_after_attempt
    by_cases hk : retries_on k = true <;> by_cases h5 : (5 : Nat) ≤ a <;>
      simp [hk, h5] <;> omega
  refine ⟨hiff, fun hr => ?_⟩
  obtain ⟨hk, ha⟩ := hiff.mp hr
  have hd : (shouldRetry a k).delay = wait_exponential 1 2 10 a := by
    unfold shouldRetry stop_after_attempt
    have h5 : ¬ (5 : Nat) ≤ a := by omega
    simp [hk, h5]
  rw [hd]
  interval_cases a <;> decide

/-- C1 amended, witnessed at attempt 3 on a Transient failure. -/
theorem c1_retry_policy_amended_witness :
    ((shouldRetry 3 .Transient).retry = true ↔ (retries_on .Transient = true ∧ 3 ≤ 4)) ∧
    ((shouldRetry 3 .Transient).retry = true →
      (shouldRetry 3 .Transient).delay = min (2 * 2 ^ (3 - 1)) 10) :=
  c1_retry_policy_amended 3 .Transient (by decide)

/-- C2 counterexample: a completed stream of exactly 1024 bytes.  The
claim says the file is kept and the outcome is Success at or above the
1024-byte threshold; the code's comparison at line 131 is
file_size <= MIN_FILE_SIZE, so at exactly 1024 bytes the file is removed
and the outcome is SkippedInvalidSize. -/
theorem c2_size_boundary_counterexample :
    downloadSample (.ok [1024] none) none = (.returned (.skippedInvalidSize 1024), none) ∧
    Outcome.skippedInvalidSize 1024 ≠ Outcome.success 1024 := by
  decide

/-- C2 amended: after a completed stream the written byte count is
compared against the 1024-byte threshold with a non-strict test: at or
below 1024 bytes the file is deleted and the outcome is
SkippedInvalidSize; strictly above 1024 bytes the file is kept at its
destination with its full size and the outcome is Success. -/
theorem c2_size_check_amended (chunks : List Nat) (fs : Option Nat) :
    downloadSample (.ok chunks none) fs =
      if chunks.sum ≤ 1024 then (.returned (.skippedInvalidSize chunks.sum), none)
      else (.returned (.success chunks.sum), some chunks.sum) := by
  simp [downloadSample, writeLoop_none, MIN_FILE_SIZE]

/-- C3 counterexample: two sibling elements carrying the same
data-sample-id.  The claim says duplicates are removed; parse_sample_ids
is a plain list comprehension over find_all (line 96) and returns the
value twice. -/
theorem c3_duplicates_counterexample :
    parse_sample_ids [.elem (some "x") [], .elem (some "x") []] = ["x", "x"] ∧
    ¬ (["x", "x"] : List String).Nodup ∧
    parse_sample_ids [.elem (some "x") [], .elem (some "x") []] ≠ ["x"] := by
  refine ⟨rfl, by decide, by decide⟩

/-- C3 amended: for every HTML document the parser returns the attribute
value of each element carrying the marker attribute, in first-occurrence
document (preorder) order, with duplicates preserved - one entry per
marked element - and returns an empty sequence (never an error) when no
element carries the marker attribute. -/
theorem c3_parse_amended (doc : List HtmlNode) :
    parse_sample_ids doc = (preorderNodesList doc).filterMap markerOf ∧
    (parse_sample_ids doc).length = ((preorderNodesList doc).filter hasMarker).length ∧
    ((∀ n ∈ preorderNodesList doc, markerOf n = none) → parse_sample_ids doc = []) := by
  have h1 : parse_sample_ids doc = (preorderNodesList doc).filterMap markerOf := by
    unfold parse_sample_ids find_all_with_marker
    have : hasMarker = fun n => (markerOf n).isSome := rfl
    rw [this, filterMap_filter_isSome]
  refine ⟨h1, ?_, ?_⟩
  · unfold parse_sample_ids find_all_with_marker
    generalize preorderNodesList doc = l
    induction l with
    | nil => rfl
    | cons n t ih =>
      by_cases hn : hasMarker n = true
      · have hsome : (markerOf n).isSome := hn
        obtain ⟨v, hv⟩ := Option.isSome_iff_exists.mp hsome
        simp [List.filter, hn, hv, List.filterMap, ih]
      · simp [List.filter, hn, ih]
  · intro hnone
    rw [h1]
    simp only [List.filterMap_eq_nil_iff]
    exact hnone

/-- C3 amended, witnessed on a small document with a nested marked
element. -/
theorem c3_parse_amended_witness :
    parse_sample_ids [HtmlNode.elem (some "a") [HtmlNode.elem (some "b") []], HtmlNode.text "t"] =
      (preorderNodesList [HtmlNode.elem (some "a") [HtmlNode.elem (some "b") []], HtmlNode.text "t"]).filterMap markerOf ∧
    (parse_sample_ids [HtmlNode.elem (some "a") [HtmlNode.elem (some "b") []], HtmlNode.text "t"]).length =
      ((preorderNodesList [HtmlNode.elem (some "a") [HtmlNode.elem (some "b") []], HtmlNode.text "t"]).filter hasMarker).length ∧
    ((∀ n ∈ preorderNodesList [HtmlNode.elem (some "a") [HtmlNode.elem (some "b") []], HtmlNode.text "t"],
        markerOf n = none) →
      parse_sample_ids [HtmlNode.elem (some "a") [HtmlNode.elem (some "b") []], HtmlNode.text "t"] = []) :=
  c3_parse_amended [HtmlNode.elem (some "a") [HtmlNode.elem (some "b") []], HtmlNode.text "t"]

/-- C4 counterexample: an OSError injected after the first of two
600-byte chunks.  The claim says no partial file is left behind on any
non-Success path; the except OSError handler at lines 149-150 only logs,
so the outcome is not Success yet a 600-byte partial file remains. -/
theorem c4_partial_file_counterexample :
    (downloadSample (.ok [600, 600] (some 1)) none).1.isSuccess = false ∧
    (downloadSample (.ok [600, 600] (some 1)) none).2 = some 600 := by
  decide

/-- C4 amended: starting from an absent destination file, the invalid-size
path always deletes the file, and the 404 and raising paths never create
one; the single exception is the swallowed mid-stream OSError path, which
leaves the partial file on disk and propagates no error - so a file can
remain after a non-Success outcome only on that path. -/
theorem c4_cleanup_amended (ev : ReqEvent) :
    ((downloadSample ev none).2 ≠ none →
      (downloadSample ev none).1.isSuccess = true ∨
        (downloadSample ev none).1 = .returned .ioErrorLogged) ∧
    (∀ w, (downloadSample ev none).1 = .returned (.skippedInvalidSize w) →
      (downloadSample ev none).2 = none) := by
  cases ev with
  | notFound => simp [downloadSample, DownloadResult.isSuccess]
  | httpError s => simp [downloadSample, DownloadResult.isSuccess]
  | tooManyRedirects => simp [downloadSample, DownloadResult.isSuccess]
  | connError => simp [downloadSample, DownloadResult.isSuccess]
  | ok chunks ioFailAt =>
    cases ioFailAt with
    | none =>
      rw [show downloadSample (.ok chunks none) none =
            if chunks.sum ≤ 1024 then (.returned (.skippedInvalidSize chunks.sum), none)
            else (.returned (.success chunks.sum), some chunks.sum) from by
          simp [downloadSample, writeLoop_none, MIN_FILE_SIZE]]
      split <;> simp [DownloadResult.isSuccess]
    | some k =>
      simp [downloadSample, writeLoop_some, DownloadResult.isSuccess]

/-- C4 amended, witnessed on the mid-stream OSError input: the partial
file remains only because the outcome is the swallowed-OSError one. -/
theorem c4_cleanup_amended_witness :
    (downloadSample (.ok [600, 600] (some 1)) none).1.isSuccess = true ∨
      (downloadSample (.ok [600, 600] (some 1)) none).1 = .returned .ioErrorLogged :=
  (c4_cleanup_amended (.ok [600, 600] (some 1))).1 (by decide)

/-- C5 counterexample: the claim says only PreconditionError (missing or
invalid credentials) and SearchFetchError abort the run.  With valid
cookies but an empty family name the run aborts at line 220 - an abort
that is neither of the two; and an invalid-JSON config file aborts the run
with an uncaught json.JSONDecodeError rather than either sanctioned
error. -/
theorem c5_abort_counterexample :
    (mainRun (.valid { cookies := [("auth", "x")] }) .absent "" (some [.elem (some "a1") []])
        (fun _ => .ok ())).1 = .abortedEmptyFamily ∧
    (mainRun .invalidJson .absent "fam" (some [.elem (some "a1") []])
        (fun _ => .ok ())).1 = .abortedConfigExn .jsonDecodeError := by
  refine ⟨rfl, rfl⟩

/-- C5 amended: a per-item failure of any kind caught by the loop's
except clauses (redirect loops, HTTP errors, tenacity RetryError, any
other Exception - everything short of a BaseException) never aborts the
batch: every identifier is processed in order with one console record
each; and the run aborts only before the download phase - when the
credential load does not succeed (the clean no-cookies exit or an uncaught
config exception), when the family name is empty, or when the search fetch
fails. -/
theorem c5_batch_continues_amended (onDisk afterAutomation : ConfigFile) (family : String)
    (fetched : Option (List HtmlNode)) (beh : String → Except ItemExn Unit)
    (hbase : ∀ sid, beh sid ≠ .error .baseException) :
    ((mainRun onDisk afterAutomation family fetched beh).1.isAbort = true ↔
      (load_cookies_into_session onDisk afterAutomation ≠ .ok true ∨ family = "" ∨
        fetched = none)) ∧
    (∀ doc, fetched = some doc →
      load_cookies_into_session onDisk afterAutomation = .ok true → family ≠ "" →
      parse_sample_ids doc ≠ [] →
      (mainRun onDisk afterAutomation family fetched beh).1 =
        .completed ((parse_sample_ids doc).map fun sid => itemLogOf sid (beh sid))) := by
  rcases hl : load_cookies_into_session onDisk afterAutomation with e | b
  · refine ⟨by simp [mainRun, hl, RunResult.isAbort], ?_⟩
    intro doc hdoc hok
    simp at hok
  · cases b with
    | false =>
      refine ⟨by simp [mainRun, hl, RunResult.isAbort], ?_⟩
      intro doc hdoc hok
      simp at hok
    | true =>
      by_cases hf : family = ""
      · refine ⟨by simp [mainRun, hl, hf, RunResult.isAbort], ?_⟩
        intro doc hdoc hok hfam
        exact absurd hf hfam
      · cases fetched with
        | none =>
          refine ⟨by simp [mainRun, hl, hf, RunResult.isAbort], ?_⟩
          intro doc hdoc
          exact absurd hdoc (by simp)
        | some doc =>
          have hloop := downloadLoop_ok ((parse_sample_ids doc).map fun sid => (sid, beh sid))
            (by
              intro p hp
              obtain ⟨sid, _, rfl⟩ := List.mem_map.mp hp
              exact hbase sid)
          by_cases hids : (parse_sample_ids doc).isEmpty = true
          · refine ⟨by simp [mainRun, hl, hf, hids, RunResult.isAbort], ?_⟩
            intro doc2 hdoc2 hok hfam hne
            obtain rfl : doc = doc2 := Option.some.inj hdoc2
            exact absurd (List.isEmpty_iff.mp hids) hne
          · refine ⟨?_, ?_⟩
            · simp [mainRun, hl, hf, hids, hloop, RunResult.isAbort]
            · intro doc2 hdoc2 hok hfam hne
              obtain rfl : doc = doc2 := Option.some.inj hdoc2
              simp [mainRun, hl, hf, hids, hloop, List.map_map]

/-- C5 amended, witnessed on a run whose every download fails with a
tenacity RetryError: both identifiers are still processed and the run
completes. -/
theorem c5_batch_continues_amended_witness :
    (mainRun (.valid { cookies := [("auth", "x")] }) .absent "foo"
        (some [.elem (some "a1") [], .elem (some "a2") []])
        (fun _ => .error .retryError)).1 =
      .completed [.failedUnexpected "a1", .failedUnexpected "a2"] := by
  have h := (c5_batch_continues_amended (.valid { cookies := [("auth", "x")] }) .absent "foo"
      (some [.elem (some "a1") [], .elem (some "a2") []]) (fun _ => .error .retryError)
      (fun sid => by simp)).2
    [.elem (some "a1") [], .elem (some "a2") []] rfl (by rfl) (by decide) (by decide)
  exact h.trans (by rfl)

/-- C6: a 404 response short-circuits download_sample to the
SkippedNotFound path (lines 111-113) on the very first attempt: the
decorated call performs exactly one attempt, issues no retry, and leaves
the file state untouched. -/
theorem c6_notfound_no_retry (evs : Nat → ReqEvent) (fs : Option Nat)
    (h : evs 1 = .notFound) :
    downloadWithRetry evs fs = (.returned .skippedNotFound, fs, 1) := by
  unfold downloadWithRetry
  simp [attemptFrom, h, downloadSample, DownloadResult.retryable]

/-- C6, witnessed on a run whose first event is the 404. -/
theorem c6_notfound_no_retry_witness :
    downloadWithRetry (fun _ => .notFound) none = (.returned .skippedNotFound, none, 1) :=
  c6_notfound_no_retry (fun _ => .notFound) none rfl

/-- C7 counterexample: the claim says the identifier is URL-encoded
before being embedded; line 106 interpolates it verbatim, so for an
identifier with a space the built URL differs from the encoded form. -/
theorem c7_url_encoding_counterexample :
    download_url "a b" = "https://tria.ge/samples/a b/sample.zip" ∧
    download_url_spec "a b" = "https://tria.ge/samples/a%20b/sample.zip" ∧
    download_url "a b" ≠ download_url_spec "a b" := by
  refine ⟨rfl, by decide, by decide⟩

/-- C7 amended: the artifact URL is built deterministically from the
fixed template with the identifier embedded verbatim, with no URL
encoding applied; this coincides with the URL-encoded template exactly on
identifiers made of quote-safe characters. -/
theorem c7_url_template_amended (sid : String)
    (h : ∀ c ∈ sid.data, isQuoteSafe c = true) :
    download_url sid = "https://tria.ge/samples/" ++ sid ++ "/sample.zip" ∧
    download_url sid = download_url_spec sid := by
  refine ⟨rfl, ?_⟩
  unfold download_url download_url_spec
  rw [pythonQuote_safe sid h]

/-- C7 amended, witnessed on a typical sample identifier. -/
theorem c7_url_template_amended_witness :
    download_url "240112-abcde" = "https://tria.ge/samples/" ++ "240112-abcde" ++ "/sample.zip" ∧
    download_url "240112-abcde" = download_url_spec "240112-abcde" :=
  c7_url_template_amended "240112-abcde" (by decide)

/-- C8: whenever the cookie load does not succeed - the config bundle
still absent after the automation hand-off, invalid JSON, or a present
bundle with no cookies - main exits (cleanly or by exception) before the
session issues any request: the network trace is empty, so no search and
no download request is ever issued without loaded credentials. -/
theorem c8_no_network_without_credentials (onDisk afterAutomation : ConfigFile)
    (family : String) (fetched : Option (List HtmlNode))
    (beh : String → Except ItemExn Unit)
    (h : load_cookies_into_session onDisk afterAutomation ≠ .ok true) :
    (mainRun onDisk afterAutomation family fetched beh).2 = [] ∧
    ((mainRun onDisk afterAutomation family fetched beh).1 = .abortedNoCookies ∨
      ∃ e, (mainRun onDisk afterAutomation family fetched beh).1 = .abortedConfigExn e) := by
  rcases hl : load_cookies_into_session onDisk afterAutomation with e | b
  · simp [mainRun, hl]
  · cases b with
    | false => simp [mainRun, hl]
    | true => exact absurd hl h

/-- C8, witnessed on a config file whose cookies entry is empty. -/
theorem c8_no_network_without_credentials_witness :
    (mainRun (.valid { cookies := [] }) .absent "fam" none (fun _ => .ok ())).2 = [] ∧
    ((mainRun (.valid { cookies := [] }) .absent "fam" none (fun _ => .ok ())).1 =
        .abortedNoCookies ∨
      ∃ e, (mainRun (.valid { cookies := [] }) .absent "fam" none (fun _ => .ok ())).1 =
        .abortedConfigExn e) :=
  c8_no_network_without_credentials (.valid { cookies := [] }) .absent "fam" none
    (fun _ => .ok ()) (by simp [load_cookies_into_session, json_load_config, effectiveConfig])

/-- C9: an OSError raised while writing the artifact mid-stream is caught
at line 149 and only logged: the decorated call returns normally after
exactly one attempt (no retry, since nothing is raised) and the partially
written file - the bytes of the chunks written before the failure - is
left on disk. -/
theorem c9_oserror_swallowed (evs : Nat → ReqEvent) (fs : Option Nat)
    (chunks : List Nat) (k : Nat) (h : evs 1 = .ok chunks (some k)) :
    downloadWithRetry evs fs = (.returned .ioErrorLogged, some (chunks.take k).sum, 1) := by
  unfold downloadWithRetry
  simp [attemptFrom, h, downloadSample, writeLoop_some, DownloadResult.retryable]

/-- C9, witnessed on a stream failing after its first 600-byte chunk. -/
theorem c9_oserror_swallowed_witness :
    downloadWithRetry (fun _ => .ok [600, 600] (some 1)) none =
      (.returned .ioErrorLogged, some ([600, 600].take 1).sum, 1) :=
  c9_oserror_swallowed (fun _ => .ok [600, 600] (some 1)) none [600, 600] 1 rfl

/-- C10: on a config file that exists but holds invalid JSON,
load_cookies_into_session raises the json.JSONDecodeError uncaught (line
187) instead of returning False, so main aborts by exception rather than
through the clean missing-credentials exit, whereas load_config catches
the same error (line 34) and returns an empty dict. -/
theorem c10_invalid_json_raises (afterAutomation : ConfigFile) (family : String)
    (fetched : Option (List HtmlNode)) (beh : String → Except ItemExn Unit) :
    load_cookies_into_session .invalidJson afterAutomation = .error .jsonDecodeError ∧
    load_config .invalidJson = { cookies := [] } ∧
    (mainRun .invalidJson afterAutomation family fetched beh).1 =
      .abortedConfigExn .jsonDecodeError ∧
    (mainRun .invalidJson afterAutomation family fetched beh).1 ≠ .abortedNoCookies := by
  refine ⟨rfl, rfl, ?_, ?_⟩ <;> simp [mainRun, load_cookies_into_session, json_load_config, effectiveConfig]

end Triage
